import Mathlib

/-!
Verification development for the WindyTracker client library, a thin
wrapper over the CTA Bus/Train Tracker HTTP APIs.  The repository ships
its client logic outside the documentation tree, so the operational
model below is built from the written contract of the library: parameter
marshaling, required-parameter validation, transport delegation, the
typed (schema-validated) surface, and the error taxonomy.
-/

namespace WindyTracker

/-- Modelled from the spec: JSON-like values as exchanged with the CTA
API (the repository code handling them, simpleapi.py and typedapi.py, is
not in the documentation tree).  Objects keep their fields in order. -/
inductive Json where
  | str : String → Json
  | num : Int → Json
  | bool : Bool → Json
  | null : Json
  | arr : List Json → Json
  | obj : List (String × Json) → Json
  deriving Repr, Inhabited

/-- Modelled from the spec: the error taxonomy of section 7, kinds (1)
parameter error, (2) transport error, (3) decoding error and (4)
validation error.  Kind (5), the upstream API error, is data inside a
Json response, never an element of this type. -/
inductive CtaError where
  | paramError : String → CtaError
  | transportError : String → CtaError
  | decodingError : CtaError
  | validationError : String → CtaError
  deriving Repr, DecidableEq

/-- Modelled from the spec: a raw HTTP response body, which either
decodes as JSON or is malformed. -/
inductive RawBody where
  | jsonBody : Json → RawBody
  | invalidBody : String → RawBody
  deriving Repr

/-- Modelled from the spec: what one outbound HTTP GET can come back
with: a 2xx response carrying a body, or a network failure, timeout or
non-2xx status. -/
inductive MockReply where
  | ok : RawBody → MockReply
  | netFail : String → MockReply
  deriving Repr

/-- Modelled from the spec: a transport backend maps an endpoint path
and a query mapping (the API key plus the per-call parameters) to a
reply.  Mock transports for the testable properties are values of this
type. -/
abbrev Transport : Type := String → List (String × String) → MockReply

/-- Modelled from the spec: the tracker handle holds an API key and a
base URL and is immutable after construction. -/
structure Tracker where
  key : String
  baseUrl : String
  deriving Repr, DecidableEq

/-- Modelled from the spec: the documented CTA bus-tracker base URL. -/
def busBaseUrl : String := "http://www.ctabustracker.com/bustime/api/v2"

/-- Modelled from the spec: the documented CTA train-tracker base URL. -/
def trainBaseUrl : String := "http://lapi.transitchicago.com/api/1.0"

/-- Modelled from the spec: construction takes a required API key and an
optional base-URL override. -/
def mkBusTracker (key : String) (base : Option String := none) : Tracker :=
  { key := key, baseUrl := base.getD busBaseUrl }

/-- Modelled from the spec: construction of a train tracker. -/
def mkTrainTracker (key : String) (base : Option String := none) : Tracker :=
  { key := key, baseUrl := base.getD trainBaseUrl }

/-- Modelled from the spec: parameter marshaling assembles the query
mapping from the caller-supplied optional parameters, omitting the
absent ones and passing the present ones through unchanged. -/
def buildParams (supplied : List (String × Option String)) :
    List (String × String) :=
  supplied.filterMap fun p => p.2.map fun v => (p.1, v)

/-- Modelled from the spec: whether the caller supplied a value for the
parameter named k. -/
def hasParam (supplied : List (String × Option String)) (k : String) : Bool :=
  supplied.any fun p => p.1 == k && p.2.isSome

/-- Modelled from the spec: endpoint-specific required parameters are
all present. -/
def requiredPresent (required : List String)
    (supplied : List (String × Option String)) : Bool :=
  required.all (hasParam supplied)

/-- Modelled from the spec: decoding of a transport reply.  A network
failure surfaces as a transport error, a malformed body as a decoding
error, a JSON body is returned as is. -/
def decodeReply : MockReply → Except CtaError Json
  | .netFail m => .error (.transportError m)
  | .ok (.invalidBody _) => .error .decodingError
  | .ok (.jsonBody j) => .ok j

/-- Modelled from the spec: the observable outcome of one endpoint-method
call: the value or error handed back to the caller, together with the
list of transport invocations the call made, each recorded as the path
and the query mapping handed to the transport layer. -/
structure CallTrace where
  result : Except CtaError Json
  sent : List (String × List (String × String))
  deriving Repr

/-- Modelled from the spec: the shared endpoint-method contract.  The
method validates presence of the endpoint-specific required parameters,
raising a parameter error before any network call when one is missing;
otherwise it assembles the parameter mapping, attaches the API key,
performs exactly one transport call on the fixed endpoint path and
returns the decoded result unchanged, with no retry. -/
def callEndpoint (transport : Transport) (t : Tracker) (path : String)
    (required : List String) (supplied : List (String × Option String)) :
    CallTrace :=
  if requiredPresent required supplied then
    let query := ("key", t.key) :: buildParams supplied
    { result := decodeReply (transport path query), sent := [(path, query)] }
  else
    { result := .error (.paramError path), sent := [] }

/-- Modelled from the spec: the bus gettime endpoint, no required
parameters. -/
def Tracker.gettime (t : Tracker) (transport : Transport)
    (unixTime : Option String := none) : CallTrace :=
  callEndpoint transport t "gettime" [] [("unixTime", unixTime)]

/-- Modelled from the spec: the bus getrtpidatafeeds endpoint, no
required parameters. -/
def Tracker.getrtpidatafeeds (t : Tracker) (transport : Transport) :
    CallTrace :=
  callEndpoint transport t "getrtpidatafeeds" [] []

/-- Modelled from the spec: the bus getroutes endpoint, no required
parameters. -/
def Tracker.getroutes (t : Tracker) (transport : Transport) : CallTrace :=
  callEndpoint transport t "getroutes" [] []

/-- Modelled from the spec: the bus getlocalelist endpoint, no required
parameters. -/
def Tracker.getlocalelist (t : Tracker) (transport : Transport)
    (inLocaleLanguage : Option String := none) : CallTrace :=
  callEndpoint transport t "getlocalelist" []
    [("inlocalelanguage", inLocaleLanguage)]

/-- Modelled from the spec: the bus getdirections endpoint, requiring a
route id rt. -/
def Tracker.getdirections (t : Tracker) (transport : Transport)
    (rt : Option String := none) : CallTrace :=
  callEndpoint transport t "getdirections" ["rt"] [("rt", rt)]

/-- Modelled from the spec: the bus getstops endpoint, requiring a route
id and a direction. -/
def Tracker.getstops (t : Tracker) (transport : Transport)
    (rt : Option String := none) (dir : Option String := none) : CallTrace :=
  callEndpoint transport t "getstops" ["rt", "dir"]
    [("rt", rt), ("dir", dir)]

/-- Modelled from the spec: the bus getpredictions endpoint, requiring a
stop id stpid. -/
def Tracker.getpredictions (t : Tracker) (transport : Transport)
    (stpid : Option String := none) (rt : Option String := none)
    (vid : Option String := none) (top : Option String := none) : CallTrace :=
  callEndpoint transport t "getpredictions" ["stpid"]
    [("stpid", stpid), ("rt", rt), ("vid", vid), ("top", top)]

/-- Modelled from the spec: the bus getvehicles endpoint, requiring a
vehicle id vid. -/
def Tracker.getvehicles (t : Tracker) (transport : Transport)
    (vid : Option String := none) (rt : Option String := none) : CallTrace :=
  callEndpoint transport t "getvehicles" ["vid"] [("vid", vid), ("rt", rt)]

/-- Modelled from the spec: the bus getpatterns endpoint, requiring a
route id rt. -/
def Tracker.getpatterns (t : Tracker) (transport : Transport)
    (rt : Option String := none) : CallTrace :=
  callEndpoint transport t "getpatterns" ["rt"] [("rt", rt)]

/-- Modelled from the spec: the bus getservicebulletins endpoint,
requiring a route id rt. -/
def Tracker.getservicebulletins (t : Tracker) (transport : Transport)
    (rt : Option String := none) : CallTrace :=
  callEndpoint transport t "getservicebulletins" ["rt"] [("rt", rt)]

/-- Modelled from the spec: the bus getdetours endpoint, no required
parameters. -/
def Tracker.getdetours (t : Tracker) (transport : Transport)
    (rt : Option String := none) : CallTrace :=
  callEndpoint transport t "getdetours" [] [("rt", rt)]

/-- Modelled from the spec: the train getarrivals endpoint, requiring a
stop or station id stpid. -/
def Tracker.getarrivals (t : Tracker) (transport : Transport)
    (stpid : Option String := none) (max : Option String := none) :
    CallTrace :=
  callEndpoint transport t "getarrivals" ["stpid"]
    [("stpid", stpid), ("max", max)]

/-- Modelled from the spec: the train getpositions endpoint, requiring a
route id rt. -/
def Tracker.getpositions (t : Tracker) (transport : Transport)
    (rt : Option String := none) : CallTrace :=
  callEndpoint transport t "getpositions" ["rt"] [("rt", rt)]

/-- Modelled from the spec: the train getfollow endpoint, requiring a
run number runnumber. -/
def Tracker.getfollow (t : Tracker) (transport : Transport)
    (runnumber : Option String := none) : CallTrace :=
  callEndpoint transport t "getfollow" ["runnumber"]
    [("runnumber", runnumber)]

/-- Look up a field by name in an ordered JSON object field list. -/
def objGet : List (String × Json) → String → Option Json
  | [], _ => none
  | (k, v) :: rest, name => if k == name then some v else objGet rest name

/-- Look up a field by name at the top level of a JSON value. -/
def Json.getKey : Json → String → Option Json
  | .obj fs, name => objGet fs name
  | _, _ => none

/-- Modelled from the spec: error kind (5): the response parses and
validates but carries an embedded error field under the bustime-response
or ctatt envelope, reporting an upstream rejection such as an invalid
stop id. -/
def hasEmbeddedError (j : Json) : Bool :=
  match j.getKey "bustime-response" with
  | some env => (env.getKey "error").isSome
  | none =>
    match j.getKey "ctatt" with
    | some env => (env.getKey "error").isSome
    | none => false

/-- Modelled from the spec: a declared schema for an endpoint response
envelope.  A record schema lists its fields with a flag telling whether
the field is required; fields of the document not declared by the schema
are passed through. -/
inductive Schema where
  | sString : Schema
  | sNumber : Schema
  | sBoolean : Schema
  | sAny : Schema
  | sList : Schema → Schema
  | sRecord : List (String × Schema × Bool) → Schema
  deriving Repr, Inhabited

mutual

/-- Modelled from the spec: recursive validation of a JSON value against
a declared schema; a missing required field or a wrong type fails. -/
def validate : Schema → Json → Bool
  | .sString, .str _ => true
  | .sString, _ => false
  | .sNumber, .num _ => true
  | .sNumber, _ => false
  | .sBoolean, .bool _ => true
  | .sBoolean, _ => false
  | .sAny, _ => true
  | .sList s, .arr xs => validateList s xs
  | .sList _, _ => false
  | .sRecord fields, .obj fs => validateFields fields fs
  | .sRecord _, _ => false

/-- Validation of every element of a JSON array against the element
schema. -/
def validateList : Schema → List Json → Bool
  | _, [] => true
  | s, x :: xs => validate s x && validateList s xs

/-- Validation of the declared fields against an object: a declared
field that is present must validate recursively, a required declared
field must be present. -/
def validateFields : List (String × Schema × Bool) → List (String × Json) → Bool
  | [], _ => true
  | (name, s, req) :: rest, fs =>
    (match objGet fs name with
     | some v => validate s v
     | none => !req) && validateFields rest fs

end

/-- Modelled from the spec: the structured record produced by the typed
surface: named, typed fields mirroring the validated response. -/
inductive TypedValue where
  | tStr : String → TypedValue
  | tNum : Int → TypedValue
  | tBool : Bool → TypedValue
  | tNull : TypedValue
  | tList : List TypedValue → TypedValue
  | tRec : List (String × TypedValue) → TypedValue
  deriving Repr, Inhabited

mutual

/-- Modelled from the spec: building the structured record from a
schema-validated JSON document, keeping every field and value. -/
def jsonToTyped : Json → TypedValue
  | .str s => .tStr s
  | .num n => .tNum n
  | .bool b => .tBool b
  | .null => .tNull
  | .arr xs => .tList (jsonListToTyped xs)
  | .obj fs => .tRec (jsonFieldsToTyped fs)

/-- Structured records for a list of JSON values. -/
def jsonListToTyped : List Json → List TypedValue
  | [] => []
  | x :: xs => jsonToTyped x :: jsonListToTyped xs

/-- Structured records for the fields of a JSON object. -/
def jsonFieldsToTyped : List (String × Json) → List (String × TypedValue)
  | [] => []
  | (k, v) :: fs => (k, jsonToTyped v) :: jsonFieldsToTyped fs

end

mutual

/-- Modelled from the spec: re-serialization of a structured record back
to a JSON document. -/
def typedToJson : TypedValue → Json
  | .tStr s => .str s
  | .tNum n => .num n
  | .tBool b => .bool b
  | .tNull => .null
  | .tList xs => .arr (typedListToJson xs)
  | .tRec fs => .obj (typedFieldsToJson fs)

/-- Re-serialization of a list of structured records. -/
def typedListToJson : List TypedValue → List Json
  | [] => []
  | x :: xs => typedToJson x :: typedListToJson xs

/-- Re-serialization of the fields of a structured record. -/
def typedFieldsToJson : List (String × TypedValue) → List (String × Json)
  | [] => []
  | (k, v) :: fs => (k, typedToJson v) :: typedFieldsToJson fs

end

/-- Field access on a structured record. -/
def TypedValue.getField : TypedValue → String → Option TypedValue
  | .tRec fs, name => go fs name
  | _, _ => none
where
  go : List (String × TypedValue) → String → Option TypedValue
    | [], _ => none
    | (k, v) :: rest, name => if k == name then some v else go rest name

/-- Index access on a structured list. -/
def TypedValue.getIndex : TypedValue → Nat → Option TypedValue
  | .tList xs, i => xs.get? i
  | _, _ => none

/-- Modelled from the spec: the observable outcome of one typed
endpoint-method call. -/
structure TypedCallTrace where
  result : Except CtaError TypedValue
  sent : List (String × List (String × String))
  deriving Repr

/-- Modelled from the spec: the typed surface calls the corresponding
untyped endpoint method, then parses the returned JSON against the
declared schema for the endpoint.  On schema mismatch it fails with a
validation error; on success it returns the structured record; every
other error of the untyped call passes through unchanged. -/
def typedCallEndpoint (schema : Schema) (transport : Transport) (t : Tracker)
    (path : String) (required : List String)
    (supplied : List (String × Option String)) : TypedCallTrace :=
  let tr := callEndpoint transport t path required supplied
  match tr.result with
  | .error e => { result := .error e, sent := tr.sent }
  | .ok j =>
    if validate schema j then { result := .ok (jsonToTyped j), sent := tr.sent }
    else { result := .error (.validationError path), sent := tr.sent }

/-- Modelled from the spec: the declared schema for one bus route
record. -/
def routeSchema : Schema :=
  .sRecord [("rt", .sString, true), ("rtnm", .sString, true),
            ("rtclr", .sString, false), ("rtdd", .sString, false)]

/-- Modelled from the spec: the declared schema for the getroutes
response envelope. -/
def routesSchema : Schema :=
  .sRecord [("bustime-response",
             .sRecord [("routes", .sList routeSchema, false),
                       ("error", .sAny, false)], true)]

/-- Modelled from the spec: the declared schema for one bus prediction
record. -/
def predictionSchema : Schema :=
  .sRecord [("rt", .sString, true), ("des", .sString, false),
            ("prdctdn", .sString, false), ("stpid", .sString, false)]

/-- Modelled from the spec: the declared schema for the getpredictions
response envelope. -/
def predictionsSchema : Schema :=
  .sRecord [("bustime-response",
             .sRecord [("prd", .sList predictionSchema, false),
                       ("error", .sAny, false)], true)]

/-- Modelled from the spec: the typed getroutes endpoint method. -/
def Tracker.typedGetroutes (t : Tracker) (transport : Transport) :
    TypedCallTrace :=
  typedCallEndpoint routesSchema transport t "getroutes" [] []

/-- Modelled from the spec: the typed getpredictions endpoint method. -/
def Tracker.typedGetpredictions (t : Tracker) (transport : Transport)
    (stpid : Option String := none) (rt : Option String := none)
    (vid : Option String := none) (top : Option String := none) :
    TypedCallTrace :=
  typedCallEndpoint predictionsSchema transport t "getpredictions" ["stpid"]
    [("stpid", stpid), ("rt", rt), ("vid", vid), ("top", top)]

/-- Modelled from the spec: a suspending computation, as observed from
outside the cooperative scheduler: a deferred value forced when the task
resumes.  The suspending tracker delegates to the same call logic over
the same transport interface as the blocking one. -/
def Async (α : Type) : Type := Unit → α

/-- Run a suspending computation to completion. -/
def Async.run {α : Type} (x : Async α) : α := x ()

/-- Modelled from the spec: the shared endpoint-method contract of the
suspending tracker variant: the same marshaling, validation and
transport delegation as the blocking variant, deferred. -/
def asyncCallEndpoint (transport : Transport) (t : Tracker) (path : String)
    (required : List String) (supplied : List (String × Option String)) :
    Async CallTrace :=
  fun _ => callEndpoint transport t path required supplied

/-- Modelled from the spec: the suspending getpredictions endpoint
method of the AsyncBusTracker variant. -/
def Tracker.asyncGetpredictions (t : Tracker) (transport : Transport)
    (stpid : Option String := none) (rt : Option String := none)
    (vid : Option String := none) (top : Option String := none) :
    Async CallTrace :=
  asyncCallEndpoint transport t "getpredictions" ["stpid"]
    [("stpid", stpid), ("rt", rt), ("vid", vid), ("top", top)]

/-- Modelled from the spec: the suspending getroutes endpoint method. -/
def Tracker.asyncGetroutes (t : Tracker) (transport : Transport) :
    Async CallTrace :=
  asyncCallEndpoint transport t "getroutes" [] []

/-- One endpoint-method call of a sequence: its fixed path, its required
parameter names and the caller-supplied parameters. -/
structure CallSpec where
  path : String
  required : List String
  supplied : List (String × Option String)

/-- Modelled from the spec: one endpoint-method call as a step of the
tracker handle: it produces the calls outcome and the handle as it
stands afterwards; the handle is immutable after construction and no
method keeps internal state. -/
def stepCall (transport : Transport) (t : Tracker) (c : CallSpec) :
    CallTrace × Tracker :=
  (callEndpoint transport t c.path c.required c.supplied, t)

/-- Modelled from the spec: a sequence of endpoint-method calls on one
tracker handle, each starting from the handle the previous call left
behind. -/
def runCalls (transport : Transport) (t : Tracker) :
    List CallSpec → List CallTrace × Tracker
  | [] => ([], t)
  | c :: cs =>
    let step := stepCall transport t c
    let rest := runCalls transport step.2 cs
    (step.1 :: rest.1, rest.2)

/-- Whether an endpoint-call outcome is a parameter error. -/
def isParamError : Except CtaError Json → Bool
  | .error (.paramError _) => true
  | _ => false

/-- A demonstration tracker handle. -/
def demoTracker : Tracker := mkBusTracker "demo-key"

/-- The getroutes fixture response of the spec. -/
def routesFixture : Json :=
  .obj [("bustime-response",
         .obj [("routes",
                .arr [.obj [("rt", .str "22"), ("rtnm", .str "Clark")]])])]

/-- A mock transport answering every request with the getroutes
fixture. -/
def routesMock : Transport := fun _ _ => .ok (.jsonBody routesFixture)

/-- A fixture response for getpredictions with stpid 1001. -/
def predictionsFixture : Json :=
  .obj [("bustime-response",
         .obj [("prd",
                .arr [.obj [("rt", .str "22"), ("des", .str "Howard"),
                            ("prdctdn", .str "5"),
                            ("stpid", .str "1001")]])])]

/-- A mock transport answering every request with the predictions
fixture. -/
def predictionsMock : Transport := fun _ _ => .ok (.jsonBody predictionsFixture)

/-- A fixture response carrying an embedded upstream API error. -/
def apiErrorFixture : Json :=
  .obj [("bustime-response",
         .obj [("error",
                .arr [.obj [("msg", .str "No service scheduled"),
                            ("stpid", .str "99999")]])])]

/-- A mock transport answering with the embedded-error fixture. -/
def apiErrorMock : Transport := fun _ _ => .ok (.jsonBody apiErrorFixture)

/-- A mock transport that always fails at the network level. -/
def downMock : Transport := fun _ _ => .netFail "connection refused"

/-- A mock transport returning a body that is not valid JSON. -/
def badBodyMock : Transport := fun _ _ => .ok (.invalidBody "<html>oops")

/-- A fixture response whose route record misses the schema-required
field rt. -/
def missingFieldFixture : Json :=
  .obj [("bustime-response",
         .obj [("routes", .arr [.obj [("rtnm", .str "Clark")]])])]

/-- A mock transport answering with the missing-field fixture. -/
def missingFieldMock : Transport := fun _ _ => .ok (.jsonBody missingFieldFixture)

/-- Marshaling membership: a pair sits in the assembled query mapping
exactly when the caller supplied that value for that name. -/
theorem buildParams_mem (supplied : List (String × Option String))
    (k v : String) :
    (k, v) ∈ buildParams supplied ↔ (k, some v) ∈ supplied := by
  induction supplied with
  | nil => simp [buildParams]
  | cons p ps ih =>
    obtain ⟨a, b⟩ := p
    cases b with
    | none =>
      simpa [buildParams, List.filterMap_cons] using ih
    | some w =>
      simp only [buildParams] at ih
      simp [buildParams, List.filterMap_cons, ih, Prod.ext_iff]

/-- Decoding a transport reply never produces a parameter error. -/
theorem decodeReply_not_paramError (r : MockReply) :
    isParamError (decodeReply r) = false := by
  cases r with
  | netFail m => rfl
  | ok b =>
    cases b with
    | jsonBody j => rfl
    | invalidBody s => rfl

/-- Unfolding an endpoint call whose required parameters are present. -/
theorem callEndpoint_of_required (transport : Transport) (t : Tracker)
    (path : String) (required : List String)
    (supplied : List (String × Option String))
    (hreq : requiredPresent required supplied = true) :
    callEndpoint transport t path required supplied =
      { result := decodeReply
          (transport path (("key", t.key) :: buildParams supplied)),
        sent := [(path, ("key", t.key) :: buildParams supplied)] } := by
  simp [callEndpoint, hreq]

/-- Unfolding an endpoint call with a required parameter missing. -/
theorem callEndpoint_of_missing (transport : Transport) (t : Tracker)
    (path : String) (required : List String)
    (supplied : List (String × Option String)) (k : String)
    (hk : k ∈ required) (habs : hasParam supplied k = false) :
    callEndpoint transport t path required supplied =
      { result := .error (.paramError path), sent := [] } := by
  have h : requiredPresent required supplied = false := by
    cases hval : requiredPresent required supplied with
    | false => rfl
    | true =>
      have := List.all_eq_true.mp hval k hk
      rw [habs] at this
      cases this
  simp [callEndpoint, h]

/-- Claim C1: for every endpoint method and every valid parameter set, the
query mapping handed to the transport layer is the API key together
with exactly the caller-supplied present parameters, each value
unchanged, and absent optional parameters are omitted. -/
theorem marshaling_exact (transport : Transport) (t : Tracker)
    (path : String) (required : List String)
    (supplied : List (String × Option String))
    (hreq : requiredPresent required supplied = true) :
    (callEndpoint transport t path required supplied).sent =
      [(path, ("key", t.key) :: buildParams supplied)] ∧
    ∀ k v, (k, v) ∈ buildParams supplied ↔ (k, some v) ∈ supplied := by
  refine ⟨?_, fun k v => buildParams_mem supplied k v⟩
  rw [callEndpoint_of_required transport t path required supplied hreq]

/-- Witness for C1 at a concrete getpredictions parameter set. -/
theorem marshaling_exact_witness :
    (callEndpoint downMock demoTracker "getpredictions" ["stpid"]
        [("stpid", some "1001"), ("rt", none), ("vid", none),
         ("top", some "3")]).sent =
      [("getpredictions",
        [("key", "demo-key"), ("stpid", "1001"), ("top", "3")])] ∧
    ∀ k v,
      (k, v) ∈ buildParams
          [("stpid", some "1001"), ("rt", none), ("vid", none),
           ("top", some "3")] ↔
      (k, some v) ∈
        [("stpid", some "1001"), ("rt", none), ("vid", none),
         ("top", some "3")] :=
  marshaling_exact downMock demoTracker "getpredictions" ["stpid"]
    [("stpid", some "1001"), ("rt", none), ("vid", none), ("top", some "3")]
    (by rfl)

/-- Claim C2: omitting a required identifier raises a parameter error and the
transport layer is invoked zero times on that call. -/
theorem missing_required_raises_before_call (transport : Transport)
    (t : Tracker) (path : String) (required : List String)
    (supplied : List (String × Option String)) (k : String)
    (hk : k ∈ required) (habs : hasParam supplied k = false) :
    (callEndpoint transport t path required supplied).result =
      .error (.paramError path) ∧
    (callEndpoint transport t path required supplied).sent = [] := by
  rw [callEndpoint_of_missing transport t path required supplied k hk habs]
  exact ⟨rfl, rfl⟩

/-- Witness for C2: getpredictions without stpid raises a parameter
error and makes no transport call. -/
theorem missing_required_raises_before_call_witness :
    (callEndpoint predictionsMock demoTracker "getpredictions" ["stpid"]
        [("stpid", none), ("rt", some "22"), ("vid", none),
         ("top", none)]).result =
      .error (.paramError "getpredictions") ∧
    (callEndpoint predictionsMock demoTracker "getpredictions" ["stpid"]
        [("stpid", none), ("rt", some "22"), ("vid", none),
         ("top", none)]).sent = [] :=
  missing_required_raises_before_call predictionsMock demoTracker
    "getpredictions" ["stpid"]
    [("stpid", none), ("rt", some "22"), ("vid", none), ("top", none)]
    "stpid" (by simp) (by rfl)

/-- Claim C10: gettime, getrtpidatafeeds, getroutes and getlocalelist have no
required parameters: called with zero arguments, each makes its one
transport call and never raises a parameter error. -/
theorem zero_argument_methods_reach_transport (transport : Transport)
    (t : Tracker) :
    (t.gettime transport).sent = [("gettime", [("key", t.key)])] ∧
    isParamError (t.gettime transport).result = false ∧
    (t.getrtpidatafeeds transport).sent =
      [("getrtpidatafeeds", [("key", t.key)])] ∧
    isParamError (t.getrtpidatafeeds transport).result = false ∧
    (t.getroutes transport).sent = [("getroutes", [("key", t.key)])] ∧
    isParamError (t.getroutes transport).result = false ∧
    (t.getlocalelist transport).sent =
      [("getlocalelist", [("key", t.key)])] ∧
    isParamError (t.getlocalelist transport).result = false := by
  refine ⟨rfl, ?_, rfl, ?_, rfl, ?_, rfl, ?_⟩ <;>
    exact decodeReply_not_paramError _

/-- Claim C7: a response whose JSON parses and validates but carries an
embedded upstream error field is returned as data, not raised; the
other error kinds (transport, decoding, validation, and the parameter
error of the separate missing-identifier theorem) are raised to the
immediate caller, and no call ever invokes the transport more than
once, so there is no local recovery or retry. -/
theorem upstream_error_as_data (transport : Transport) (t : Tracker)
    (path : String) (required : List String)
    (supplied : List (String × Option String)) (j : Json)
    (hreq : requiredPresent required supplied = true)
    (hresp : transport path (("key", t.key) :: buildParams supplied) =
      .ok (.jsonBody j))
    (herr : hasEmbeddedError j = true) :
    (callEndpoint transport t path required supplied).result = .ok j ∧
    (callEndpoint transport t path required supplied).sent.length = 1 ∧
    (∀ (other : Transport) (m : String),
       other path (("key", t.key) :: buildParams supplied) = .netFail m →
       (callEndpoint other t path required supplied).result =
         .error (.transportError m) ∧
       (callEndpoint other t path required supplied).sent.length = 1) ∧
    (∀ (other : Transport) (s : String),
       other path (("key", t.key) :: buildParams supplied) =
         .ok (.invalidBody s) →
       (callEndpoint other t path required supplied).result =
         .error .decodingError ∧
       (callEndpoint other t path required supplied).sent.length = 1) ∧
    (∀ schema : Schema, validate schema j = false →
       (typedCallEndpoint schema transport t path required supplied).result =
         .error (.validationError path) ∧
       (typedCallEndpoint schema transport t path required
           supplied).sent.length = 1) := by
  refine ⟨?_, ?_, ?_, ?_, ?_⟩
  · rw [callEndpoint_of_required transport t path required supplied hreq, hresp]
    rfl
  · rw [callEndpoint_of_required transport t path required supplied hreq]
    rfl
  · intro other m hother
    rw [callEndpoint_of_required other t path required supplied hreq, hother]
    exact ⟨rfl, rfl⟩
  · intro other s hother
    rw [callEndpoint_of_required other t path required supplied hreq, hother]
    exact ⟨rfl, rfl⟩
  · intro schema hbad
    simp [typedCallEndpoint,
      callEndpoint_of_required transport t path required supplied hreq,
      hresp, decodeReply, hbad]

/-- Witness for C7: the embedded-error fixture is returned as data and
a network failure on the same call is raised as a transport error. -/
theorem upstream_error_as_data_witness :
    (callEndpoint apiErrorMock demoTracker "getpredictions" ["stpid"]
        [("stpid", some "99999")]).result = .ok apiErrorFixture ∧
    (callEndpoint downMock demoTracker "getpredictions" ["stpid"]
        [("stpid", some "99999")]).result =
      .error (.transportError "connection refused") :=
  ⟨(upstream_error_as_data apiErrorMock demoTracker "getpredictions"
      ["stpid"] [("stpid", some "99999")] apiErrorFixture rfl rfl rfl).1,
   ((upstream_error_as_data apiErrorMock demoTracker "getpredictions"
      ["stpid"] [("stpid", some "99999")] apiErrorFixture rfl rfl
      rfl).2.2.1 downMock "connection refused" rfl).1⟩

/-- Claim C8: a transport body that is not valid JSON raises a decoding error
for both the untyped and the typed variant. -/
theorem malformed_body_raises_decoding_error (schema : Schema)
    (transport : Transport) (t : Tracker) (path : String)
    (required : List String) (supplied : List (String × Option String))
    (s : String)
    (hreq : requiredPresent required supplied = true)
    (hresp : transport path (("key", t.key) :: buildParams supplied) =
      .ok (.invalidBody s)) :
    (callEndpoint transport t path required supplied).result =
      .error .decodingError ∧
    (typedCallEndpoint schema transport t path required supplied).result =
      .error .decodingError := by
  constructor
  · rw [callEndpoint_of_required transport t path required supplied hreq, hresp]
    rfl
  · simp [typedCallEndpoint,
      callEndpoint_of_required transport t path required supplied hreq,
      hresp, decodeReply]

/-- Witness for C8: the malformed-body mock produces a decoding error on
getroutes for both variants. -/
theorem malformed_body_raises_decoding_error_witness :
    (callEndpoint badBodyMock demoTracker "getroutes" [] []).result =
      .error .decodingError ∧
    (typedCallEndpoint routesSchema badBodyMock demoTracker "getroutes"
        [] []).result = .error .decodingError :=
  malformed_body_raises_decoding_error routesSchema badBodyMock demoTracker
    "getroutes" [] [] "<html>oops" rfl rfl

/-- Claim C3: a response JSON that fails the declared schema raises a
validation error on the typed variant, an error distinguishable from
every transport error and from the decoding error, while the untyped
variant returns the same JSON unchanged. -/
theorem typed_validation_error_distinguished (schema : Schema)
    (transport : Transport) (t : Tracker) (path : String)
    (required : List String) (supplied : List (String × Option String))
    (j : Json)
    (hreq : requiredPresent required supplied = true)
    (hresp : transport path (("key", t.key) :: buildParams supplied) =
      .ok (.jsonBody j))
    (hbad : validate schema j = false) :
    (typedCallEndpoint schema transport t path required supplied).result =
      .error (.validationError path) ∧
    (∀ m, CtaError.validationError path ≠ CtaError.transportError m) ∧
    CtaError.validationError path ≠ CtaError.decodingError ∧
    (callEndpoint transport t path required supplied).result = .ok j := by
  refine ⟨?_, ?_, ?_, ?_⟩
  · simp [typedCallEndpoint,
      callEndpoint_of_required transport t path required supplied hreq,
      hresp, decodeReply, hbad]
  · intro m h
    cases h
  · intro h
    cases h
  · rw [callEndpoint_of_required transport t path required supplied hreq, hresp]
    rfl

/-- Witness for C3: the route record lacking the required field rt fails
typed validation while the untyped call returns it unchanged. -/
theorem typed_validation_error_distinguished_witness :
    (typedCallEndpoint routesSchema missingFieldMock demoTracker
        "getroutes" [] []).result = .error (.validationError "getroutes") ∧
    (∀ m, CtaError.validationError "getroutes" ≠ CtaError.transportError m) ∧
    CtaError.validationError "getroutes" ≠ CtaError.decodingError ∧
    (callEndpoint missingFieldMock demoTracker "getroutes" [] []).result =
      .ok missingFieldFixture :=
  typed_validation_error_distinguished routesSchema missingFieldMock
    demoTracker "getroutes" [] [] missingFieldFixture rfl rfl
    (by simp [validate, validateList, validateFields, objGet,
          routesSchema, routeSchema, missingFieldFixture])

mutual

/-- Re-serializing the structured record built from a JSON document
gives back the document. -/
theorem typedToJson_jsonToTyped : (j : Json) →
    typedToJson (jsonToTyped j) = j
  | .str _ => by simp [jsonToTyped, typedToJson]
  | .num _ => by simp [jsonToTyped, typedToJson]
  | .bool _ => by simp [jsonToTyped, typedToJson]
  | .null => by simp [jsonToTyped, typedToJson]
  | .arr xs => by
      simp [jsonToTyped, typedToJson, typedListToJson_jsonListToTyped xs]
  | .obj fs => by
      simp [jsonToTyped, typedToJson, typedFieldsToJson_jsonFieldsToTyped fs]

/-- Round trip over a list of JSON values. -/
theorem typedListToJson_jsonListToTyped : (xs : List Json) →
    typedListToJson (jsonListToTyped xs) = xs
  | [] => by simp [jsonListToTyped, typedListToJson]
  | x :: xs => by
      simp [jsonListToTyped, typedListToJson, typedToJson_jsonToTyped x,
        typedListToJson_jsonListToTyped xs]

/-- Round trip over the fields of a JSON object. -/
theorem typedFieldsToJson_jsonFieldsToTyped : (fs : List (String × Json)) →
    typedFieldsToJson (jsonFieldsToTyped fs) = fs
  | [] => by simp [jsonFieldsToTyped, typedFieldsToJson]
  | (k, v) :: fs => by
      simp [jsonFieldsToTyped, typedFieldsToJson, typedToJson_jsonToTyped v,
        typedFieldsToJson_jsonFieldsToTyped fs]

end

/-- Claim C6: re-serializing the structured record of a successful typed call
reproduces exactly the JSON document the transport returned on that
call. -/
theorem typed_reserialize_reproduces_response (schema : Schema)
    (transport : Transport) (t : Tracker) (path : String)
    (required : List String) (supplied : List (String × Option String))
    (v : TypedValue)
    (h : (typedCallEndpoint schema transport t path required
        supplied).result = .ok v) :
    (callEndpoint transport t path required supplied).result =
      .ok (typedToJson v) := by
  simp only [typedCallEndpoint] at h
  cases hres : (callEndpoint transport t path required supplied).result with
  | error e => rw [hres] at h; cases h
  | ok j =>
    rw [hres] at h
    by_cases hv : validate schema j = true
    · simp only [hv, if_true] at h
      cases h
      rw [typedToJson_jsonToTyped j]
    · simp only [hv, if_false] at h
      cases h

/-- Witness for C6 at the getroutes fixture. -/
theorem typed_reserialize_reproduces_response_witness :
    (callEndpoint routesMock demoTracker "getroutes" [] []).result =
      .ok (typedToJson (jsonToTyped routesFixture)) :=
  typed_reserialize_reproduces_response routesSchema routesMock demoTracker
    "getroutes" [] [] (jsonToTyped routesFixture)
    (by simp [typedCallEndpoint, callEndpoint, requiredPresent, buildParams,
          routesMock, decodeReply, validate, validateList, validateFields,
          objGet, routesSchema, routeSchema, routesFixture])

/-- Claim C4: the blocking and the suspending tracker run the same call logic
over the same transport interface, so for identical inputs and the same
transport response they return identical results; in particular both
return identical results for getpredictions with stpid 1001 over the
fixed predictions mock. -/
theorem sync_async_identical :
    (∀ (transport : Transport) (t : Tracker) (path : String)
       (required : List String) (supplied : List (String × Option String)),
       Async.run (asyncCallEndpoint transport t path required supplied) =
         callEndpoint transport t path required supplied) ∧
    Async.run (demoTracker.asyncGetpredictions predictionsMock
        (some "1001")) =
      demoTracker.getpredictions predictionsMock (some "1001") :=
  ⟨fun _ _ _ _ _ => rfl, rfl⟩

/-- The structured record of the getroutes fixture. -/
def routesFixtureTyped : TypedValue :=
  .tRec [("bustime-response",
          .tRec [("routes",
                  .tList [.tRec [("rt", .tStr "22"),
                                 ("rtnm", .tStr "Clark")]])])]

/-- Claim C5: every untyped endpoint method returns to the caller
exactly the JSON value the transport layer produced, unchanged; in
particular, against the fixture transport, the untyped getroutes call
yields exactly the fixture JSON unchanged, and the typed call yields a
structured record whose first route has rt equal to 22. -/
theorem getroutes_fixture_untyped_and_typed :
    (∀ (transport : Transport) (t : Tracker) (path : String)
       (required : List String) (supplied : List (String × Option String))
       (j : Json),
       requiredPresent required supplied = true →
       transport path (("key", t.key) :: buildParams supplied) =
         .ok (.jsonBody j) →
       (callEndpoint transport t path required supplied).result = .ok j) ∧
    (demoTracker.getroutes routesMock).result = .ok routesFixture ∧
    (demoTracker.typedGetroutes routesMock).result = .ok routesFixtureTyped ∧
    ((routesFixtureTyped.getField "bustime-response").bind
        (fun e => e.getField "routes")).bind
        (fun rs => (rs.getIndex 0).bind (fun r => r.getField "rt")) =
      some (.tStr "22") := by
  refine ⟨?_, rfl, ?_, ?_⟩
  · intro transport t path required supplied j hreq hresp
    rw [callEndpoint_of_required transport t path required supplied hreq,
      hresp]
    rfl
  · simp [Tracker.typedGetroutes, typedCallEndpoint, callEndpoint,
      requiredPresent, buildParams, routesMock, decodeReply, validate,
      validateList, validateFields, objGet, routesSchema, routeSchema,
      routesFixture, jsonToTyped, jsonListToTyped, jsonFieldsToTyped,
      routesFixtureTyped]
  · simp [TypedValue.getField, TypedValue.getField.go, TypedValue.getIndex,
      routesFixtureTyped, Option.bind]

/-- Witness for C5: the universal pass-through clause applied at the
getroutes fixture, next to the fixture instance itself. -/
theorem getroutes_fixture_untyped_and_typed_witness :
    (callEndpoint routesMock demoTracker "getroutes" [] []).result =
      .ok routesFixture ∧
    (demoTracker.getroutes routesMock).result = .ok routesFixture :=
  ⟨getroutes_fixture_untyped_and_typed.1 routesMock demoTracker "getroutes"
      [] [] routesFixture rfl rfl,
   getroutes_fixture_untyped_and_typed.2.1⟩

/-- Claim C9: the tracker handle is unchanged by every sequence of
endpoint-method calls, and each call of the sequence returns exactly
what the same call returns alone on the initial handle: no method
result depends on prior calls through any internal state. -/
theorem handle_immutable_and_stateless (transport : Transport) (t : Tracker)
    (cs : List CallSpec) :
    (runCalls transport t cs).2 = t ∧
    (runCalls transport t cs).1 =
      cs.map (fun c => callEndpoint transport t c.path c.required
        c.supplied) := by
  induction cs with
  | nil => exact ⟨rfl, rfl⟩
  | cons c cs ih =>
    obtain ⟨ih1, ih2⟩ := ih
    refine ⟨?_, ?_⟩
    · simpa [runCalls, stepCall] using ih1
    · simp [runCalls, stepCall, ih2]

end WindyTracker
